import Mathlib

/-!
Verification development for the 3D particle-morphing application.

The TypeScript sources are shallowly embedded over exact rational arithmetic:

* `src/utils/geometry.ts` — the procedural shape generators (`generateParticles`
  and its helpers).  `Math.random()` draws are modelled by an explicit stream
  `g : ℕ → ℕ → ℚ` (outer index: particle or rejection attempt, inner index:
  call order inside that particle); transcendental library functions
  (`Math.sin`, `Math.cos`, `Math.acos`, `Math.sqrt`, fractional `Math.pow`,
  `Math.PI`) are uninterpreted parameters collected in a `MathOps` record, so
  every definition stays computable and every theorem quantifies over them.
  The particle count, a module constant `PARTICLE_COUNT = 15000` in the code,
  is a parameter `count` here, matching the spec contract
  `generate(shape, count)`.
* `src/unnamed/part_000` (ParticleSystem) — the vertical-gradient colour
  mapper and the per-frame morph/noise step.
* `src/components/Controls.tsx` — the gesture classifier `processGestures`,
  the no-hand reset branch of the `HandTracker` loop, and `handleAISubmit`.
* `src/services/geminiService.ts` — `analyzeConcept` with its fallback.
* The `InteractionRig` component of the application root — the smoothed
  scale channel.

Float32 buffers are modelled as `List ℚ`; a written buffer of `N` points is a
list of `3 N` scalars, so "each entry is written" is captured by the length of
a totally constructed list.
-/

/-- The closed shape enumeration of `types.ts`.  `UNKNOWN` stands for any
runtime value outside the TypeScript enum that would reach the `default`
branch of the `switch` in `generateParticles`. -/
inductive ShapeType where
  | SPHERE
  | FLOWER
  | HEART
  | TREE
  | SNOWMAN
  | GALAXY
  | UNKNOWN
  deriving DecidableEq, Repr

/-- A 3D point with exact rational coordinates. -/
structure Pt3 where
  x : ℚ
  y : ℚ
  z : ℚ
  deriving DecidableEq, Repr

/-- The transcendental operations of the JavaScript `Math` library, kept
abstract (uninterpreted) so that the embedding is computable.  `powf` models
`Math.pow` with a fractional exponent; integer powers are written directly. -/
structure MathOps where
  sin : ℚ → ℚ
  cos : ℚ → ℚ
  acos : ℚ → ℚ
  sqrt : ℚ → ℚ
  powf : ℚ → ℚ → ℚ
  pi : ℚ

/-- `random(min, max) = Math.random() * (max - min) + min` from geometry.ts;
`u` is the `Math.random()` draw. -/
def random (u min max : ℚ) : ℚ := u * (max - min) + min

/-- `getSpherePoint(r)` from geometry.ts.  The two internal `Math.random()`
calls are the draws `u0` (for `theta`) and `u1` (for `phi`). -/
def getSpherePoint (M : MathOps) (u0 u1 rad : ℚ) : Pt3 :=
  let theta := u0 * M.pi * 2
  let phi := M.acos (2 * u1 - 1)
  ⟨rad * M.sin phi * M.cos theta, rad * M.sin phi * M.sin theta, rad * M.cos phi⟩

/-- The acceptance test of the heart rejection sampler:
`Math.pow(a, 3) - (x2 * y3) - (0.1125 * z2 * y3) <= 0` with
`a = x2 + 2.25 * z2 + y2 - 1`. -/
def heartAccept (x y z : ℚ) : Bool :=
  let x2 := x * x
  let y2 := y * y
  let z2 := z * z
  let y3 := y * y * y
  let a := x2 + 2.25 * z2 + y2 - 1
  a ^ 3 - (x2 * y3) - (0.1125 * z2 * y3) ≤ 0

/-- One attempt of the heart sampler: three fresh draws mapped into the cube
`[-1.5, 1.5]^3`. -/
def heartAttempt (g : ℕ → ℕ → ℚ) (attempt : ℕ) : Pt3 :=
  ⟨random (g attempt 0) (-1.5) 1.5,
   random (g attempt 1) (-1.5) 1.5,
   random (g attempt 2) (-1.5) 1.5⟩

/-- The bounded rejection-sampling loop
`while (idx < PARTICLE_COUNT && attempt < maxAttempts)` of the heart branch.
`fuel` is the number of attempts still allowed, `needed` the number of points
still missing; accepted points are collected pre-scale. -/
def heartLoop (g : ℕ → ℕ → ℚ) : ℕ → ℕ → ℕ → List Pt3
  | 0, _, _ => []
  | _ + 1, _, 0 => []
  | fuel + 1, attempt, needed + 1 =>
    let p := heartAttempt g attempt
    if heartAccept p.x p.y p.z then p :: heartLoop g fuel (attempt + 1) needed
    else heartLoop g fuel (attempt + 1) (needed + 1)

/-- `const scale = 12` of the heart branch. -/
def heartScale : ℚ := 12

/-- The point list produced by the heart branch: accepted points scaled by 12,
then the fallback fill `while (idx < PARTICLE_COUNT) positions[...] = 0`
padding with origin points up to `count`. -/
def heartPoints (g : ℕ → ℕ → ℚ) (count : ℕ) : List Pt3 :=
  let accepted := heartLoop g (count * 20) 0 count
  accepted.map (fun p => ⟨p.x * heartScale, p.y * heartScale, p.z * heartScale⟩)
    ++ List.replicate (count - accepted.length) ⟨0, 0, 0⟩

/-- JavaScript `%` on the (positive) operands appearing in the flower code. -/
def jsMod (a b : ℚ) : ℚ := a - b * ((Int.floor (a / b) : ℤ) : ℚ)

/-- The stem branch of the flower generator (`seed < 0.10`).  Draw order:
`t` (1), `theta` (2), thorn test (3), leaf test (4), `leafU` (5), `leafV` (6). -/
def flowerStem (M : MathOps) (r : ℕ → ℚ) : Pt3 :=
  let t := r 1
  let yPos := -18 + t * 18
  let rr := 0.5 + (1 - t) * 0.4
  let theta := r 2 * M.pi * 2
  let curveX := M.sin (t * M.pi) * 1.5
  let curveZ := M.cos (t * M.pi * 0.5) * 0.5
  let x := M.cos theta * rr + curveX
  let z := M.sin theta * rr + curveZ
  let y := yPos
  let thornLen : ℚ := 0.5
  let x := if r 3 < 0.1 then x + M.cos theta * thornLen else x
  let z := if r 3 < 0.1 then z + M.sin theta * thornLen else z
  if t > 0.3 ∧ t < 0.7 ∧ r 4 > 0.95 then
    let leafU := r 5
    let leafV := (r 6 - 0.5) * 2
    let side : ℚ := if yPos < -9 then 1 else -1
    let lLen : ℚ := 8
    let lWid := 3 * M.sin (leafU * M.pi)
    let lx := side * leafU * lLen
    let ly := leafU * 3 + (leafV * lWid * 0.2) - (leafU * leafU) * 4
    let lz := leafV * lWid
    ⟨x + lx, y + ly, z + lz⟩
  else ⟨x, y, z⟩

/-- The stamen branch of the flower generator (`0.10 <= seed < 0.25`); the
golden angle uses the particle index `i`. -/
def flowerStamen (M : MathOps) (i : ℕ) (r : ℕ → ℚ) : Pt3 :=
  let rr := 1.5 * M.sqrt (r 1)
  let theta := (i : ℚ) * 2.39996
  let heightBias := r 2
  let domeY := M.sqrt (1 - (rr / 1.5) * (rr / 1.5)) * 2.0 * heightBias
  ⟨rr * M.cos theta, domeY + 1.0, rr * M.sin theta⟩

/-- One petal layer configuration record of the flower generator.  (The
initial `layerConfig` literal in the source is dead: the following
if/else-if/else chain reassigns it on every path.) -/
structure FlowerLayer where
  count : ℚ
  radiusOffset : ℚ
  tilt : ℚ
  length : ℚ
  width : ℚ
  yBase : ℚ
  inwardCurl : ℚ

/-- The petal branch of the flower generator (`seed >= 0.25`).  Draw order:
`petalSeed` (1), petal index (2), `u` (3), `v` (4). -/
def flowerPetal (M : MathOps) (r : ℕ → ℚ) : Pt3 :=
  let petalSeed := r 1
  let layerConfig : FlowerLayer :=
    if petalSeed < 0.30 then ⟨5, 0.5, 0.1, 9, 4.0, 0.5, 1.2⟩
    else if petalSeed < 0.65 then ⟨7, 1.2, 0.25, 11, 5.5, 0.2, 1.0⟩
    else ⟨9, 2.0, 0.4, 12, 7.0, -0.5, 0.8⟩
  let petalIdx : ℚ := ((Int.floor (r 2 * layerConfig.count) : ℤ) : ℚ)
  let anglePerPetal := (M.pi * 2) / layerConfig.count
  let angleOffset := jsMod layerConfig.length 2 * (anglePerPetal / 2)
  let baseAngle := petalIdx * anglePerPetal + angleOffset
  let u := r 3
  let v := (r 4 - 0.5) * 2
  let widthProfile := M.sin (M.powf u 0.7 * M.pi) * layerConfig.width
  let cupping := (v * v) * 2.5 * u
  let lx := v * widthProfile
  let ly := u * layerConfig.length
  let lz := cupping
  let effectiveTilt := layerConfig.tilt - (M.powf u 1.5 * layerConfig.inwardCurl)
  let cosT := M.cos effectiveTilt
  let sinT := M.sin effectiveTilt
  let rx := lx
  let ry := ly * cosT - lz * sinT
  let rz := ly * sinT + lz * cosT
  let rz := rz + layerConfig.radiusOffset
  let ry := ry + layerConfig.yBase
  let cosA := M.cos baseAngle
  let sinA := M.sin baseAngle
  ⟨rx * cosA - rz * sinA, ry, rx * sinA + rz * cosA⟩

/-- The flower case of the shape switch: 10% stem, 15% stamen, 75% petals,
selected by the first draw. -/
def flowerPoint (M : MathOps) (i : ℕ) (r : ℕ → ℚ) : Pt3 :=
  let seed := r 0
  if seed < 0.10 then flowerStem M r
  else if seed < 0.25 then flowerStamen M i r
  else flowerPetal M r

/-- The tree case: 10% trunk, 90% cone of leaves.  Trunk draw order matches
the source: `x` (1), `z` (2), `y` (3). -/
def treePoint (M : MathOps) (r : ℕ → ℚ) : Pt3 :=
  let p := r 0
  if p < 0.1 then
    ⟨random (r 1) (-1) 1, random (r 3) (-10) 0, random (r 2) (-1) 1⟩
  else
    let h := r 1 * 25
    let maxR := 10 * (1 - h / 25)
    let theta := r 2 * M.pi * 2
    let rr := r 3 * maxR
    ⟨rr * M.cos theta, h - 5, rr * M.sin theta⟩

/-- The snowman case with its five cumulative-probability regions. -/
def snowmanPoint (M : MathOps) (r : ℕ → ℚ) : Pt3 :=
  let rand := r 0
  let headY : ℚ := 7
  let headRadius : ℚ := 5.5
  if rand < 0.45 then
    let p := getSpherePoint M (r 1) (r 2) 9
    ⟨p.x, p.y - 6, p.z⟩
  else if rand < 0.70 then
    let p := getSpherePoint M (r 1) (r 2) headRadius
    ⟨p.x, p.y + headY, p.z⟩
  else if rand < 0.85 then
    let hatPart := r 1
    let hatBaseY := headY + headRadius * 0.8
    if hatPart < 0.4 then
      let rr := M.sqrt (r 2) * 7
      let theta := r 3 * M.pi * 2
      ⟨rr * M.cos theta, hatBaseY + random (r 4) (-0.2) 0.2, rr * M.sin theta⟩
    else
      let rr := M.sqrt (r 2) * 4
      let theta := r 3 * M.pi * 2
      let h := r 4 * 7
      ⟨rr * M.cos theta, hatBaseY + h, rr * M.sin theta⟩
  else if rand < 0.90 then
    let side : ℚ := if r 1 > 0.5 then 1 else -1
    let t := r 2
    let startX := side * 7
    let endX := side * 16
    ⟨startX + (endX - startX) * t, 0 + (t * 4), random (r 3) (-1) 1⟩
  else
    let feature := r 1
    if feature < 0.3 then
      let eyeSide : ℚ := if r 2 > 0.5 then 1 else -1
      let p := getSpherePoint M (r 3) (r 4) 0.4
      ⟨(eyeSide * 1.8) + p.x, (headY + 1.5) + p.y,
        (M.sqrt (headRadius * headRadius - 1.8 * 1.8 - 1.5 * 1.5) + 0.5) + p.z⟩
    else if feature < 0.6 then
      let noseBaseRadius : ℚ := 0.5
      let noseLength : ℚ := 3.5
      let t := r 2
      let currentR := noseBaseRadius * (1 - t)
      let theta := r 3 * M.pi * 2
      ⟨currentR * M.cos theta, headY + currentR * M.sin theta, headRadius + (t * noseLength)⟩
    else
      let t := random (r 2) (-2) 2
      let x := t
      let curveY := (t * t) * 0.15
      ⟨x, (headY - 1.5) + curveY + random (r 3) (-0.1) 0.1,
        M.sqrt (headRadius * headRadius - x * x - 2 * 2) + random (r 4) 0 0.2⟩

/-- The galaxy case: the first 40% of the index range is a spherical core, the
rest an annulus tilted 20 degrees about the X axis. -/
def galaxyPoint (M : MathOps) (count i : ℕ) (r : ℕ → ℚ) : Pt3 :=
  if (i : ℚ) < (count : ℚ) * 0.40 then
    getSpherePoint M (r 0) (r 1) 10
  else
    let angle := r 0 * M.pi * 2
    let rr := random (r 1) 12 16
    let x := M.cos angle * rr
    let z := M.sin angle * rr
    let y := random (r 2) (-0.2) 0.2
    let tilt := 20 * (M.pi / 180)
    let tiltedY := y * M.cos tilt - z * M.sin tilt
    let tiltedZ := y * M.sin tilt + z * M.cos tilt
    ⟨x, tiltedY, tiltedZ⟩

/-- The `default` branch of the shape switch: a uniform cube `[-10, 10]^3`. -/
def defaultPoint (r : ℕ → ℚ) : Pt3 :=
  ⟨random (r 0) (-10) 10, random (r 1) (-10) 10, random (r 2) (-10) 10⟩

/-- One iteration of the per-particle `switch (type)` of `generateParticles`.
`HEART` never reaches this switch (the heart branch returns before the loop);
were it to, the switch has no `HEART` case, so the `default` branch applies. -/
def shapePoint (M : MathOps) (count i : ℕ) (r : ℕ → ℚ) : ShapeType → Pt3
  | ShapeType.SPHERE => getSpherePoint M (r 0) (r 1) 15
  | ShapeType.FLOWER => flowerPoint M i r
  | ShapeType.HEART => defaultPoint r
  | ShapeType.TREE => treePoint M r
  | ShapeType.SNOWMAN => snowmanPoint M r
  | ShapeType.GALAXY => galaxyPoint M count i r
  | ShapeType.UNKNOWN => defaultPoint r

/-- Flattening of a point list into the flat scalar buffer
(`positions[i*3], positions[i*3+1], positions[i*3+2]`). -/
def flat3 : List Pt3 → List ℚ
  | [] => []
  | p :: ps => p.x :: p.y :: p.z :: flat3 ps

/-- `generateParticles` of geometry.ts: the heart branch runs the bounded
rejection sampler with origin fallback; every other selector runs the
per-index switch.  `g i` is the draw stream of particle (or attempt) `i`. -/
def generateParticles (M : MathOps) (type : ShapeType) (count : ℕ)
    (g : ℕ → ℕ → ℚ) : List ℚ :=
  if type = ShapeType.HEART then flat3 (heartPoints g count)
  else flat3 ((List.range count).map (fun i => shapePoint M count i (g i) type))

/-- The session particle count constant of geometry.ts. -/
def PARTICLE_COUNT : ℕ := 15000

/-- An RGB colour with exact rational channels (a `THREE.Color`). -/
structure Color where
  r : ℚ
  g : ℚ
  b : ℚ
  deriving DecidableEq, Repr

/-- The five gradient control colours `c1 .. c5` of the ParticleSystem colour
pass (bottom to top). -/
structure Palette where
  c1 : Color
  c2 : Color
  c3 : Color
  c4 : Color
  c5 : Color
  deriving DecidableEq, Repr

/-- `THREE.Color.lerpColors(c1, c2, alpha)`: channel-wise
`c1 + (c2 - c1) * alpha`. -/
def lerpColors (a b : Color) (alpha : ℚ) : Color :=
  ⟨a.r + (b.r - a.r) * alpha, a.g + (b.g - a.g) * alpha, a.b + (b.b - a.b) * alpha⟩

/-- The `minY` scan of the colour pass.  The `Infinity` sentinel is modelled
by `none`: the first comparison `y < Infinity` always succeeds. -/
def scanMinY (tp : List Pt3) : Option ℚ :=
  tp.foldl (fun m p =>
    match m with
    | none => some p.y
    | some m0 => if p.y < m0 then some p.y else some m0) none

/-- The `maxY` scan of the colour pass, with `-Infinity` as `none`. -/
def scanMaxY (tp : List Pt3) : Option ℚ :=
  tp.foldl (fun m p =>
    match m with
    | none => some p.y
    | some m0 => if p.y > m0 then some p.y else some m0) none

/-- `const height = maxY - minY || 1`: a zero range is replaced by the floor
value 1. -/
def heightOf (minY maxY : ℚ) : ℚ := if maxY - minY = 0 then 1 else maxY - minY

/-- The per-particle colour of the gradient pass: normalise the vertical
coordinate, clamp to `[0, 1]`, then pick one of the four 0.25-wide linear
segments. -/
def particleColor (pal : Palette) (minY maxY y : ℚ) : Color :=
  let t := (y - minY) / heightOf minY maxY
  let t := max 0 (min 1 t)
  if t < 0.25 then lerpColors pal.c1 pal.c2 (t / 0.25)
  else if t < 0.5 then lerpColors pal.c2 pal.c3 ((t - 0.25) / 0.25)
  else if t < 0.75 then lerpColors pal.c3 pal.c4 ((t - 0.5) / 0.25)
  else lerpColors pal.c4 pal.c5 ((t - 0.75) / 0.25)

/-- The whole colour pass over the target buffer: scan the bounds, then map
every particle through `particleColor`.  The fallthrough case is unreachable
for a nonempty buffer (the scans return `some` on any nonempty list). -/
def computeColors (pal : Palette) (tp : List Pt3) : List Color :=
  match scanMinY tp, scanMaxY tp with
  | some mn, some mx => tp.map (fun p => particleColor pal mn mx p.y)
  | _, _ => []

/-- Spec-side colour ramp, stated from the specification wording for
comparison with the code: piecewise-linear interpolation across the five
palette colours at breakpoints 0, 0.25, 0.5, 0.75, 1, each of the four
segments using the fractional position within its 0.25-wide band. -/
def specRamp (pal : Palette) (t : ℚ) : Color :=
  if t < 0.25 then lerpColors pal.c1 pal.c2 ((t - 0) / 0.25)
  else if t < 0.5 then lerpColors pal.c2 pal.c3 ((t - 0.25) / 0.25)
  else if t < 0.75 then lerpColors pal.c3 pal.c4 ((t - 0.5) / 0.25)
  else lerpColors pal.c4 pal.c5 ((t - 0.75) / 0.25)

/-- The morph blend factor `const lerpFactor = 0.05` of the ParticleSystem
frame loop. -/
def morphLerpFactor : ℚ := 0.05

/-- Step 2 of the frame loop in isolation: relax the live point toward the
target by the fixed blend factor. -/
def morphOnly (target cur : Pt3) : Pt3 :=
  ⟨cur.x + (target.x - cur.x) * morphLerpFactor,
   cur.y + (target.y - cur.y) * morphLerpFactor,
   cur.z + (target.z - cur.z) * morphLerpFactor⟩

/-- One particle of the ParticleSystem frame loop: morph toward the target,
then, when `noiseStrength > 0.01`, add the three sinusoidal perturbations
computed from the post-morph coordinates. -/
def morphStep (M : MathOps) (time speed noiseStrength : ℚ) (target cur : Pt3) : Pt3 :=
  let m := morphOnly target cur
  if noiseStrength > 0.01 then
    let nS := noiseStrength * 0.1
    let noiseX := M.sin (time * speed + m.y * 0.5) * nS
    let noiseY := M.cos (time * speed + m.x * 0.5) * nS
    let noiseZ := M.sin (time * speed + m.z * 0.5) * nS
    ⟨m.x + noiseX, m.y + noiseY, m.z + noiseZ⟩
  else m

/-- The phase of the X-axis perturbation, read off the frame loop:
`time * speed + currentPositions[i3 + 1] * 0.5` (the post-morph Y
coordinate). -/
def noisePhaseX (time speed : ℚ) (p : Pt3) : ℚ := time * speed + p.y * 0.5

/-- The phase of the Y-axis perturbation: `time * speed + x * 0.5` (the
post-morph X coordinate). -/
def noisePhaseY (time speed : ℚ) (p : Pt3) : ℚ := time * speed + p.x * 0.5

/-- The phase of the Z-axis perturbation: `time * speed + z * 0.5` — the
particle's own post-morph Z coordinate, not a different axis. -/
def noisePhaseZ (time speed : ℚ) (p : Pt3) : ℚ := time * speed + p.z * 0.5

/-- The perturbation amplitude `const nS = noiseStrength * 0.1`. -/
def noiseAmp (noiseStrength : ℚ) : ℚ := noiseStrength * 0.1

/-- The discrete interaction modes of `types.ts`. -/
inductive GestureMode where
  | IDLE
  | ROTATE_VIEW
  | ROTATE_Z
  | SCALE_UP
  | SCALE_DOWN
  deriving DecidableEq, Repr

/-- One normalized MediaPipe hand landmark.  The classifier logic reads only
`x` and `y`; `z` is carried for completeness. -/
structure Landmark where
  x : ℚ
  y : ℚ
  z : ℚ
  deriving DecidableEq, Repr

/-- The shared `GestureData` record of `types.ts`. -/
structure GestureData where
  mode : GestureMode
  detected : Bool
  scaleTarget : ℚ
  rotationZ : ℚ
  x : ℚ
  y : ℚ
  fingersCount : ℕ
  deriving DecidableEq, Repr

/-- The initial `gestureRef` value created in the application root. -/
def gestureInit : GestureData :=
  { mode := GestureMode.IDLE, detected := false, scaleTarget := 1.0,
    rotationZ := 0, x := 0, y := 0, fingersCount := 0 }

/-- Squared planar distance between two landmarks. -/
def distSq (a b : Landmark) : ℚ := (a.x - b.x) ^ 2 + (a.y - b.y) ^ 2

/-- The `isExtended(tipIdx, pipIdx)` test of `processGestures`:
`Math.hypot(tip - wrist) > Math.hypot(pip - wrist)`.  The two `Math.hypot`
values are square roots of the squared distances, and the square root is
strictly monotone on nonnegative reals, so the comparison is modelled exactly
by comparing the squared distances; the equivalence with the Euclidean
formulation is proved in `gesture_classifier_spec`. -/
def isExtended (lms : Fin 21 → Landmark) (tipIdx pipIdx : Fin 21) : Bool :=
  distSq (lms tipIdx) (lms 0) > distSq (lms pipIdx) (lms 0)

/-- `[...].filter(Boolean).length`. -/
def countTrue (l : List Bool) : ℕ := (l.filter (fun b => b)).length

/-- `processGestures` of Controls.tsx/HandTracker: per-finger extension
tests, finger count, the priority mode decision, and the sequential updates of
the shared `GestureData` record.  `atan2` is the uninterpreted
`Math.atan2`. -/
def processGestures (atan2 : ℚ → ℚ → ℚ) (lms : Fin 21 → Landmark)
    (d : GestureData) : GestureData :=
  let thumbOpen := isExtended lms 4 2
  let indexOpen := isExtended lms 8 6
  let middleOpen := isExtended lms 12 10
  let ringOpen := isExtended lms 16 14
  let pinkyOpen := isExtended lms 20 18
  let fingerCount := countTrue [thumbOpen, indexOpen, middleOpen, ringOpen, pinkyOpen]
  let mode :=
    if thumbOpen && indexOpen && middleOpen && !ringOpen && !pinkyOpen then
      GestureMode.ROTATE_Z
    else if thumbOpen && indexOpen && !middleOpen && !ringOpen && !pinkyOpen then
      GestureMode.ROTATE_VIEW
    else if fingerCount = 5 then GestureMode.SCALE_UP
    else if fingerCount = 0 then GestureMode.SCALE_DOWN
    else GestureMode.IDLE
  let d1 := { d with detected := true, mode := mode, fingersCount := fingerCount,
                     x := (lms 9).x, y := (lms 9).y }
  let d2 :=
    if mode = GestureMode.ROTATE_Z then
      { d1 with rotationZ := atan2 ((lms 12).y - (lms 8).y) ((lms 12).x - (lms 8).x) }
    else d1
  if mode = GestureMode.SCALE_UP then { d2 with scaleTarget := 3.0 }
  else if mode = GestureMode.SCALE_DOWN then { d2 with scaleTarget := 1.0 }
  else d2

/-- The no-hand branch of the HandTracker polling loop: reset mode, detected
flag and hand position; the other fields are left untouched. -/
def noHandUpdate (d : GestureData) : GestureData :=
  { d with detected := false, mode := GestureMode.IDLE, x := 0, y := 0 }

/-- Spec-side mode decision, stated from the specification wording: strict
priority order, first match wins, over the five extension flags. -/
def specMode (thumb index middle ring pinky : Bool) : GestureMode :=
  if thumb = true ∧ index = true ∧ middle = true ∧ ring = false ∧ pinky = false then
    GestureMode.ROTATE_Z
  else if thumb = true ∧ index = true ∧ middle = false ∧ ring = false ∧ pinky = false then
    GestureMode.ROTATE_VIEW
  else if countTrue [thumb, index, middle, ring, pinky] = 5 then GestureMode.SCALE_UP
  else if countTrue [thumb, index, middle, ring, pinky] = 0 then GestureMode.SCALE_DOWN
  else GestureMode.IDLE

/-- A synthetic frame with thumb, index and middle extended (tips farther from
the wrist than their proximal joints) and ring and pinky retracted. -/
def rotateZLandmark (n : ℕ) : Landmark :=
  if n = 4 ∨ n = 8 ∨ n = 12 then ⟨2, 0, 0⟩
  else if n = 2 ∨ n = 6 ∨ n = 10 then ⟨1, 0, 0⟩
  else if n = 16 ∨ n = 20 then ⟨1, 0, 0⟩
  else if n = 14 ∨ n = 18 then ⟨2, 0, 0⟩
  else ⟨0, 0, 0⟩

/-- The `rotateZLandmark` frame as a landmark table. -/
def rotateZHand : Fin 21 → Landmark := fun i => rotateZLandmark i.val

/-- A synthetic fist frame: every fingertip strictly closer to the wrist than
its proximal joint. -/
def fistLandmark (n : ℕ) : Landmark :=
  if n = 4 ∨ n = 8 ∨ n = 12 ∨ n = 16 ∨ n = 20 then ⟨1, 0, 0⟩
  else if n = 2 ∨ n = 6 ∨ n = 10 ∨ n = 14 ∨ n = 18 then ⟨2, 0, 0⟩
  else ⟨0, 0, 0⟩

/-- The `fistLandmark` frame as a landmark table. -/
def fistHand : Fin 21 → Landmark := fun i => fistLandmark i.val

/-- A synthetic frame with only the index finger extended (finger count 1, so
the classifier decides IDLE). -/
def idleHand : Fin 21 → Landmark := fun i =>
  if i.val = 8 then ⟨1, 0, 0⟩ else ⟨0, 0, 0⟩

/-- The AI response payload of `types.ts`. -/
structure AIConfigResponse where
  colorHex : String
  colorPalette : List String
  speed : ℚ
  noiseStrength : ℚ
  reasoning : String
  shapeMatch : ShapeType
  deriving DecidableEq, Repr

/-- The `ParticleConfig` record of `types.ts` (palette entries kept as hex
strings, as in the source). -/
structure ParticleConfig where
  count : ℕ
  size : ℚ
  color : String
  colorPalette : List String
  speed : ℚ
  noiseStrength : ℚ
  shape : ShapeType
  deriving DecidableEq, Repr

/-- The outcome of the `ai.models.generateContent` call inside
`analyzeConcept`: either a response (with its optional `text` and the result
of `JSON.parse` on it, `none` when parsing throws), or a thrown error
(network or authentication failure). -/
inductive GenOutcome where
  | success (text : Option String) (parsed : Option AIConfigResponse)
  | failure
  deriving DecidableEq

/-- The fixed neutral fallback returned by the `catch` of `analyzeConcept`. -/
def fallbackResponse : AIConfigResponse :=
  { colorHex := "#ffffff",
    colorPalette := ["#ffffff", "#cccccc", "#999999", "#666666", "#333333"],
    speed := 0.5, noiseStrength := 0.2,
    reasoning := "AI service unavailable, reverting to default.",
    shapeMatch := ShapeType.SPHERE }

/-- `analyzeConcept` of geminiService.ts.  The missing-key check
`if (!process.env.API_KEY) throw new Error("API Key is missing")` sits BEFORE
the try block, so it throws out of the function (`Except.error`); every
failure inside the try block — request error, absent `response.text`, or a
`JSON.parse` throw — is caught and converted to `fallbackResponse`. -/
def analyzeConcept (apiKey : Option String) (outcome : GenOutcome) :
    Except String AIConfigResponse :=
  match apiKey with
  | none => Except.error "API Key is missing"
  | some _ =>
    match outcome with
    | GenOutcome.success (some _) (some result) => Except.ok result
    | _ => Except.ok fallbackResponse

/-- The message shown by the `catch` of `handleAISubmit` in Controls.tsx. -/
def connectFailMessage : String := "Could not connect to AI. Please check API key."

/-- `handleAISubmit` of Controls.tsx, as a function from the current config
and the `analyzeConcept` result to the new config and the `aiMessage` shown:
on success the config is updated from the response and the reasoning is
shown; a thrown error is caught, the config is left unchanged and
`connectFailMessage` is shown. -/
def handleAISubmit (cfg : ParticleConfig) (res : Except String AIConfigResponse) :
    ParticleConfig × Option String :=
  match res with
  | Except.ok result =>
      ({ cfg with shape := result.shapeMatch, color := result.colorHex,
                  colorPalette := result.colorPalette, speed := result.speed,
                  noiseStrength := result.noiseStrength }, some result.reasoning)
  | Except.error _ => (cfg, some connectFailMessage)

/-- The initial `ParticleConfig` of the application root. -/
def defaultConfig : ParticleConfig :=
  { count := 15000, size := 0.15, color := "#00ffff",
    colorPalette := ["#8B4513", "#2E8B57", "#3CB371", "#90EE90", "#FFD700"],
    speed := 0.5, noiseStrength := 0.2, shape := ShapeType.SPHERE }

/-- `THREE.MathUtils.lerp(x, y, t) = (1 - t) * x + t * y`. -/
def lerp (x y t : ℚ) : ℚ := (1 - t) * x + t * y

/-- The scale channel of one InteractionRig frame: `lerpSpeed = delta * 5`,
then mode-dependent exponential approach (rotation modes lock toward 1, scale
modes pull toward `scaleTarget`, IDLE relaxes toward 1 at half rate). -/
def scaleStep (mode : GestureMode) (scaleTarget current delta : ℚ) : ℚ :=
  let lerpSpeed := delta * 5
  match mode with
  | GestureMode.ROTATE_VIEW => lerp current 1.0 lerpSpeed
  | GestureMode.ROTATE_Z => lerp current 1.0 lerpSpeed
  | GestureMode.SCALE_UP => lerp current scaleTarget lerpSpeed
  | GestureMode.SCALE_DOWN => lerp current scaleTarget lerpSpeed
  | GestureMode.IDLE => lerp current 1.0 (lerpSpeed * 0.5)

/-- `currentScale` after a sequence of frames of a sustained SCALE_UP gesture
(for which the classifier fixes `scaleTarget = 3.0`), one frame delta per
tick. -/
def runScaleUp (s0 : ℚ) (deltas : List ℚ) : ℚ :=
  deltas.foldl (fun s delta => scaleStep GestureMode.SCALE_UP 3.0 s delta) s0

/-- Product of the per-tick gap contraction factors `1 - 5 * delta`. -/
def gapFactors (deltas : List ℚ) : ℚ :=
  (deltas.map (fun delta => 1 - 5 * delta)).prod

/-- A concrete all-zero interpretation of the abstract math operations, used
only to instantiate universally quantified theorems in witnesses. -/
def mathZero : MathOps :=
  { sin := fun _ => 0, cos := fun _ => 0, acos := fun _ => 0,
    sqrt := fun _ => 0, powf := fun _ _ => 0, pi := 0 }

/-- A concrete gradient palette used in witnesses. -/
def paletteW : Palette :=
  ⟨⟨1, 0, 0⟩, ⟨0, 1, 0⟩, ⟨0, 0, 1⟩, ⟨1, 1, 0⟩, ⟨0, 1, 1⟩⟩

theorem flat3_length (l : List Pt3) : (flat3 l).length = 3 * l.length := by
  induction l with
  | nil => rfl
  | cons p ps ih => simp [flat3, ih]; ring

theorem heartLoop_length_le (g : ℕ → ℕ → ℚ) :
    ∀ fuel attempt needed, (heartLoop g fuel attempt needed).length ≤ needed := by
  intro fuel
  induction fuel with
  | zero => intro attempt needed; simp [heartLoop]
  | succ n ih =>
    intro attempt needed
    cases needed with
    | zero => simp [heartLoop]
    | succ m =>
      simp only [heartLoop]
      split
      · simpa using ih (attempt + 1) m
      · exact (ih (attempt + 1) (m + 1))

theorem heartPoints_length (g : ℕ → ℕ → ℚ) (count : ℕ) :
    (heartPoints g count).length = count := by
  have h := heartLoop_length_le g (count * 20) 0 count
  simp [heartPoints, List.length_append, List.length_map, List.length_replicate]
  omega

theorem heartLoop_mem (g : ℕ → ℕ → ℚ) :
    ∀ fuel attempt needed p, p ∈ heartLoop g fuel attempt needed →
      heartAccept p.x p.y p.z = true ∧ ∃ a, p = heartAttempt g a := by
  intro fuel
  induction fuel with
  | zero => intro attempt needed p hp; simp [heartLoop] at hp
  | succ n ih =>
    intro attempt needed p hp
    cases needed with
    | zero => simp [heartLoop] at hp
    | succ m =>
      simp only [heartLoop] at hp
      split at hp
      · rcases List.mem_cons.mp hp with h | h
        · subst h; exact ⟨by assumption, attempt, rfl⟩
        · exact ih (attempt + 1) m p h
      · exact ih (attempt + 1) (m + 1) p hp

/-- C1.  For every shape selector of the closed enumeration — and for an
unknown selector hitting the `default` branch — and for every requested
particle count, every draw stream and every interpretation of the math
library, `generateParticles` produces a buffer of exactly `3 * count`
scalars, all of them written (the list is totally constructed); in
particular the heart branch, whose rejection sampling is bounded by
`20 * count` attempts and whose shortfall is filled with origin points,
always terminates with a full-length buffer and, being a total function,
never throws. -/
theorem generateParticles_full_length (M : MathOps) (type : ShapeType)
    (count : ℕ) (g : ℕ → ℕ → ℚ) :
    (generateParticles M type count g).length = 3 * count := by
  unfold generateParticles
  split
  · rw [flat3_length, heartPoints_length]
  · rw [flat3_length, List.length_map, List.length_range]

theorem random_bounds (u lo hi : ℚ) (h0 : 0 ≤ u) (h1 : u < 1) (hlo : lo ≤ hi) :
    lo ≤ random u lo hi ∧ random u lo hi ≤ hi := by
  unfold random
  constructor
  · nlinarith
  · nlinarith

/-- C2.  With the draw stream ranging over `[0, 1)` (the contract of
`Math.random()`), every point accepted by the heart sampler lies in the cube
`[-1.5, 1.5]^3` and satisfies the implicit heart inequality before scaling,
and every point of the returned heart buffer — the accepted points scaled by
12 together with any origin fallback points — satisfies the inequality after
division by the scale constant 12.  The `generateParticles` heart output is
exactly the flattening of that buffer. -/
theorem heart_buffer_inequality (g : ℕ → ℕ → ℚ) (count : ℕ)
    (hg : ∀ a j, 0 ≤ g a j ∧ g a j < 1) :
    (∀ M : MathOps, generateParticles M ShapeType.HEART count g = flat3 (heartPoints g count)) ∧
    (∀ p ∈ heartLoop g (count * 20) 0 count,
      (-1.5 ≤ p.x ∧ p.x ≤ 1.5) ∧ (-1.5 ≤ p.y ∧ p.y ≤ 1.5) ∧ (-1.5 ≤ p.z ∧ p.z ≤ 1.5) ∧
      (p.x ^ 2 + 2.25 * p.z ^ 2 + p.y ^ 2 - 1) ^ 3
        - p.x ^ 2 * p.y ^ 3 - 0.1125 * p.z ^ 2 * p.y ^ 3 ≤ 0) ∧
    (∀ p ∈ heartPoints g count,
      ((p.x / 12) ^ 2 + 2.25 * (p.z / 12) ^ 2 + (p.y / 12) ^ 2 - 1) ^ 3
        - (p.x / 12) ^ 2 * (p.y / 12) ^ 3
        - 0.1125 * (p.z / 12) ^ 2 * (p.y / 12) ^ 3 ≤ 0) := by
  have hineq : ∀ p ∈ heartLoop g (count * 20) 0 count,
      (p.x ^ 2 + 2.25 * p.z ^ 2 + p.y ^ 2 - 1) ^ 3
        - p.x ^ 2 * p.y ^ 3 - 0.1125 * p.z ^ 2 * p.y ^ 3 ≤ 0 := by
    intro p hp
    have h := (heartLoop_mem g _ _ _ p hp).1
    simp only [heartAccept, decide_eq_true_eq] at h
    nlinarith [h]
  refine ⟨fun M => by simp [generateParticles], ?_, ?_⟩
  · intro p hp
    obtain ⟨-, a, ha⟩ := heartLoop_mem g _ _ _ p hp
    have hx := random_bounds (g a 0) (-1.5) 1.5 (hg a 0).1 (hg a 0).2 (by norm_num)
    have hy := random_bounds (g a 1) (-1.5) 1.5 (hg a 1).1 (hg a 1).2 (by norm_num)
    have hz := random_bounds (g a 2) (-1.5) 1.5 (hg a 2).1 (hg a 2).2 (by norm_num)
    subst ha
    exact ⟨⟨hx.1, hx.2⟩, ⟨hy.1, hy.2⟩, ⟨hz.1, hz.2⟩, hineq _ hp⟩
  · intro p hp
    unfold heartPoints at hp
    rcases List.mem_append.mp hp with h | h
    · obtain ⟨q, hq, hpq⟩ := List.mem_map.mp h
      have h12 : (12 : ℚ) ≠ 0 := by norm_num
      have hx : p.x / 12 = q.x := by
        rw [← hpq]; show q.x * heartScale / 12 = q.x
        rw [heartScale]; field_simp
      have hy : p.y / 12 = q.y := by
        rw [← hpq]; show q.y * heartScale / 12 = q.y
        rw [heartScale]; field_simp
      have hz : p.z / 12 = q.z := by
        rw [← hpq]; show q.z * heartScale / 12 = q.z
        rw [heartScale]; field_simp
      rw [hx, hy, hz]
      exact hineq q hq
    · have := List.eq_of_mem_replicate h
      subst this
      norm_num

/-- Witness for `heart_buffer_inequality`: the constant one-half stream is
accepted on its first attempt at the origin, so with `count = 1` the returned
buffer is the single (scaled) origin point, which satisfies the scaled
inequality. -/
theorem heart_buffer_inequality_witness :
    (⟨0, 0, 0⟩ : Pt3) ∈ heartPoints (fun _ _ => (1 : ℚ) / 2) 1 ∧
    (((0 : ℚ) / 12) ^ 2 + 2.25 * ((0 : ℚ) / 12) ^ 2 + ((0 : ℚ) / 12) ^ 2 - 1) ^ 3
      - ((0 : ℚ) / 12) ^ 2 * ((0 : ℚ) / 12) ^ 3
      - 0.1125 * ((0 : ℚ) / 12) ^ 2 * ((0 : ℚ) / 12) ^ 3 ≤ 0 := by
  have h := heart_buffer_inequality (fun _ _ => (1 : ℚ) / 2) 1
    (fun a j => ⟨by norm_num, by norm_num⟩)
  have hloop : heartLoop (fun _ _ => (1 : ℚ) / 2) (1 * 20) 0 1 = [⟨0, 0, 0⟩] := by
    simp [heartLoop, heartAttempt, heartAccept, random]
    norm_num
  have hmem : (⟨0, 0, 0⟩ : Pt3) ∈ heartPoints (fun _ _ => (1 : ℚ) / 2) 1 := by
    simp only [heartPoints, hloop]
    norm_num [heartScale]
  exact ⟨hmem, h.2.2 ⟨0, 0, 0⟩ hmem⟩

theorem lerpColors_zero (a b : Color) : lerpColors a b 0 = a := by
  cases a; simp [lerpColors]

theorem lerpColors_one (a b : Color) : lerpColors a b 1 = b := by
  cases a; cases b
  simp only [lerpColors, Color.mk.injEq]
  refine ⟨by ring, by ring, by ring⟩

theorem scanMinY_foldl_const (c : ℚ) :
    ∀ tp : List Pt3, (∀ p ∈ tp, p.y = c) →
      tp.foldl (fun m p =>
        match m with
        | none => some p.y
        | some m0 => if p.y < m0 then some p.y else some m0) (some c) = some c := by
  intro tp
  induction tp with
  | nil => intro _; rfl
  | cons p ps ih =>
    intro h
    have hp : p.y = c := h p (List.mem_cons_self p ps)
    simp only [List.foldl_cons, hp, lt_self_iff_false, if_false]
    exact ih (fun q hq => h q (List.mem_cons_of_mem p hq))

theorem scanMinY_const (c : ℚ) (tp : List Pt3) (hne : tp ≠ [])
    (hall : ∀ p ∈ tp, p.y = c) : scanMinY tp = some c := by
  cases tp with
  | nil => exact absurd rfl hne
  | cons p ps =>
    have hp : p.y = c := hall p (List.mem_cons_self p ps)
    unfold scanMinY
    simp only [List.foldl_cons]
    rw [hp]
    exact scanMinY_foldl_const c ps (fun q hq => hall q (List.mem_cons_of_mem p hq))

theorem scanMaxY_foldl_const (c : ℚ) :
    ∀ tp : List Pt3, (∀ p ∈ tp, p.y = c) →
      tp.foldl (fun m p =>
        match m with
        | none => some p.y
        | some m0 => if p.y > m0 then some p.y else some m0) (some c) = some c := by
  intro tp
  induction tp with
  | nil => intro _; rfl
  | cons p ps ih =>
    intro h
    have hp : p.y = c := h p (List.mem_cons_self p ps)
    simp only [List.foldl_cons, hp, gt_iff_lt, lt_self_iff_false, if_false]
    exact ih (fun q hq => h q (List.mem_cons_of_mem p hq))

theorem scanMaxY_const (c : ℚ) (tp : List Pt3) (hne : tp ≠ [])
    (hall : ∀ p ∈ tp, p.y = c) : scanMaxY tp = some c := by
  cases tp with
  | nil => exact absurd rfl hne
  | cons p ps =>
    have hp : p.y = c := hall p (List.mem_cons_self p ps)
    unfold scanMaxY
    simp only [List.foldl_cons]
    rw [hp]
    exact scanMaxY_foldl_const c ps (fun q hq => hall q (List.mem_cons_of_mem p hq))

/-- C5.  For a target buffer whose vertical scans produce distinct minimum
`mn` and maximum `mx`, the colour pass maps every particle through
`particleColor`, which agrees everywhere with the spec-side ramp applied to
the clamped normalised height `(y - mn) / (mx - mn)`; a particle at the
minimum height receives exactly the first palette colour and a particle at
the maximum height exactly the fifth. -/
theorem gradient_color_mapping (pal : Palette) (tp : List Pt3) (mn mx : ℚ)
    (hmn : scanMinY tp = some mn) (hmx : scanMaxY tp = some mx) (hlt : mn < mx) :
    computeColors pal tp = tp.map (fun p => particleColor pal mn mx p.y) ∧
    (∀ y : ℚ, particleColor pal mn mx y
        = specRamp pal (max 0 (min 1 ((y - mn) / (mx - mn))))) ∧
    particleColor pal mn mx mn = pal.c1 ∧
    particleColor pal mn mx mx = pal.c5 := by
  have hne : mx - mn ≠ 0 := sub_ne_zero.mpr (ne_of_gt hlt)
  have hh : heightOf mn mx = mx - mn := if_neg hne
  refine ⟨?_, ?_, ?_, ?_⟩
  · simp [computeColors, hmn, hmx]
  · intro y
    simp only [particleColor, specRamp, hh, sub_zero]
  · have ht : (mn - mn) / heightOf mn mx = 0 := by simp
    simp only [particleColor, ht]
    have hclamp : max 0 (min 1 (0 : ℚ)) = 0 := by norm_num
    rw [hclamp, if_pos (by norm_num : (0 : ℚ) < 0.25)]
    simpa using lerpColors_zero pal.c1 pal.c2
  · have ht : (mx - mn) / heightOf mn mx = 1 := by rw [hh]; exact div_self hne
    simp only [particleColor, ht]
    have hclamp : max 0 (min 1 (1 : ℚ)) = 1 := by norm_num
    rw [hclamp, if_neg (by norm_num : ¬ (1 : ℚ) < 0.25),
      if_neg (by norm_num : ¬ (1 : ℚ) < 0.5), if_neg (by norm_num : ¬ (1 : ℚ) < 0.75)]
    have : ((1 : ℚ) - 0.75) / 0.25 = 1 := by norm_num
    rw [this]
    exact lerpColors_one pal.c4 pal.c5

/-- Witness for `gradient_color_mapping` at a concrete two-particle buffer
with heights 0 and 1. -/
theorem gradient_color_mapping_witness :
    particleColor paletteW 0 1 0 = paletteW.c1 ∧ particleColor paletteW 0 1 1 = paletteW.c5 ∧
    computeColors paletteW [⟨0, 0, 0⟩, ⟨0, 1, 0⟩]
      = [particleColor paletteW 0 1 0, particleColor paletteW 0 1 1] := by
  have hmn : scanMinY [(⟨0, 0, 0⟩ : Pt3), ⟨0, 1, 0⟩] = some 0 := by
    simp [scanMinY]
  have hmx : scanMaxY [(⟨0, 0, 0⟩ : Pt3), ⟨0, 1, 0⟩] = some 1 := by
    simp [scanMaxY]
  have h := gradient_color_mapping paletteW [⟨0, 0, 0⟩, ⟨0, 1, 0⟩] 0 1 hmn hmx
    (by norm_num)
  exact ⟨h.2.2.1, h.2.2.2, by rw [h.1]; rfl⟩

/-- C6.  For a nonempty degenerate target buffer in which every particle has
the same vertical coordinate, both scans return that coordinate, the height
range is replaced by the floor value 1 (so the normalising division is by 1,
never by zero), and every output colour is exactly the first palette
colour. -/
theorem degenerate_gradient_floor (pal : Palette) (tp : List Pt3) (c : ℚ)
    (hne : tp ≠ []) (hall : ∀ p ∈ tp, p.y = c) :
    scanMinY tp = some c ∧ scanMaxY tp = some c ∧ heightOf c c = 1 ∧
    computeColors pal tp = tp.map (fun _ => pal.c1) := by
  have hmn := scanMinY_const c tp hne hall
  have hmx := scanMaxY_const c tp hne hall
  have hh : heightOf c c = 1 := by simp [heightOf]
  refine ⟨hmn, hmx, hh, ?_⟩
  simp only [computeColors, hmn, hmx]
  refine List.map_congr_left ?_
  intro p hp
  have hp2 : p.y = c := hall p hp
  have ht : (p.y - c) / heightOf c c = 0 := by simp [hp2]
  simp only [particleColor, ht]
  have hclamp : max 0 (min 1 (0 : ℚ)) = 0 := by norm_num
  rw [hclamp, if_pos (by norm_num : (0 : ℚ) < 0.25)]
  simpa using lerpColors_zero pal.c1 pal.c2

/-- Witness for `degenerate_gradient_floor` at a concrete constant-height
buffer. -/
theorem degenerate_gradient_floor_witness :
    heightOf 5 5 = 1 ∧
    computeColors paletteW [⟨0, 5, 0⟩, ⟨1, 5, 2⟩] = [paletteW.c1, paletteW.c1] := by
  have h := degenerate_gradient_floor paletteW [⟨0, 5, 0⟩, ⟨1, 5, 2⟩] 5
    (by simp)
    (by
      intro p hp
      rcases List.mem_cons.mp hp with h | h
      · subst h; rfl
      · have h2 := List.mem_singleton.mp h
        subst h2; rfl)
  exact ⟨h.2.2.1, by rw [h.2.2.2]; rfl⟩

theorem distSq_nonneg (a b : Landmark) : 0 ≤ distSq a b := by
  unfold distSq
  positivity

/-- C3.  The per-finger extension test is equivalent to the Euclidean-distance
comparison (tip-to-wrist farther than proximal-joint-to-wrist); the mode
decided by `processGestures` is exactly the spec-side strict-priority
decision over the five extension flags and the reported finger count is the
number of extended fingers; moreover the synthetic thumb+index+middle frame
classifies as ROTATE_Z, and the synthetic fist frame (every tip strictly
closer to the wrist than its proximal joint) reports zero fingers and
classifies as SCALE_DOWN. -/
theorem gesture_classifier_spec (a : ℚ → ℚ → ℚ) (lms : Fin 21 → Landmark)
    (d : GestureData) :
    (∀ tip pip : Fin 21, isExtended lms tip pip = true ↔
        Real.sqrt ((distSq (lms pip) (lms 0) : ℚ) : ℝ)
          < Real.sqrt ((distSq (lms tip) (lms 0) : ℚ) : ℝ)) ∧
    (processGestures a lms d).mode
      = specMode (isExtended lms 4 2) (isExtended lms 8 6) (isExtended lms 12 10)
          (isExtended lms 16 14) (isExtended lms 20 18) ∧
    (processGestures a lms d).fingersCount
      = countTrue [isExtended lms 4 2, isExtended lms 8 6, isExtended lms 12 10,
          isExtended lms 16 14, isExtended lms 20 18] ∧
    (processGestures a rotateZHand gestureInit).mode = GestureMode.ROTATE_Z ∧
    (processGestures a fistHand gestureInit).fingersCount = 0 ∧
    (processGestures a fistHand gestureInit).mode = GestureMode.SCALE_DOWN := by
  have hbridge : ∀ tip pip : Fin 21, isExtended lms tip pip = true ↔
      Real.sqrt ((distSq (lms pip) (lms 0) : ℚ) : ℝ)
        < Real.sqrt ((distSq (lms tip) (lms 0) : ℚ) : ℝ) := by
    intro tip pip
    rw [Real.sqrt_lt_sqrt_iff (by exact_mod_cast distSq_nonneg (lms pip) (lms 0))]
    simp only [isExtended, decide_eq_true_eq, gt_iff_lt]
    exact ⟨fun h => by exact_mod_cast h, fun h => by exact_mod_cast h⟩
  have er1 : isExtended rotateZHand 4 2 = true := by
    have ht : rotateZHand 4 = ⟨2, 0, 0⟩ := rfl
    have hp : rotateZHand 2 = ⟨1, 0, 0⟩ := rfl
    have hw : rotateZHand 0 = ⟨0, 0, 0⟩ := rfl
    simp only [isExtended, ht, hp, hw, distSq, decide_eq_true_eq, gt_iff_lt]
    norm_num
  have er2 : isExtended rotateZHand 8 6 = true := by
    have ht : rotateZHand 8 = ⟨2, 0, 0⟩ := rfl
    have hp : rotateZHand 6 = ⟨1, 0, 0⟩ := rfl
    have hw : rotateZHand 0 = ⟨0, 0, 0⟩ := rfl
    simp only [isExtended, ht, hp, hw, distSq, decide_eq_true_eq, gt_iff_lt]
    norm_num
  have er3 : isExtended rotateZHand 12 10 = true := by
    have ht : rotateZHand 12 = ⟨2, 0, 0⟩ := rfl
    have hp : rotateZHand 10 = ⟨1, 0, 0⟩ := rfl
    have hw : rotateZHand 0 = ⟨0, 0, 0⟩ := rfl
    simp only [isExtended, ht, hp, hw, distSq, decide_eq_true_eq, gt_iff_lt]
    norm_num
  have er4 : isExtended rotateZHand 16 14 = false := by
    have ht : rotateZHand 16 = ⟨1, 0, 0⟩ := rfl
    have hp : rotateZHand 14 = ⟨2, 0, 0⟩ := rfl
    have hw : rotateZHand 0 = ⟨0, 0, 0⟩ := rfl
    simp only [isExtended, ht, hp, hw, distSq, decide_eq_false_iff_not, gt_iff_lt, not_lt]
    norm_num
  have er5 : isExtended rotateZHand 20 18 = false := by
    have ht : rotateZHand 20 = ⟨1, 0, 0⟩ := rfl
    have hp : rotateZHand 18 = ⟨2, 0, 0⟩ := rfl
    have hw : rotateZHand 0 = ⟨0, 0, 0⟩ := rfl
    simp only [isExtended, ht, hp, hw, distSq, decide_eq_false_iff_not, gt_iff_lt, not_lt]
    norm_num
  have ef1 : isExtended fistHand 4 2 = false := by
    have ht : fistHand 4 = ⟨1, 0, 0⟩ := rfl
    have hp : fistHand 2 = ⟨2, 0, 0⟩ := rfl
    have hw : fistHand 0 = ⟨0, 0, 0⟩ := rfl
    simp only [isExtended, ht, hp, hw, distSq, decide_eq_false_iff_not, gt_iff_lt, not_lt]
    norm_num
  have ef2 : isExtended fistHand 8 6 = false := by
    have ht : fistHand 8 = ⟨1, 0, 0⟩ := rfl
    have hp : fistHand 6 = ⟨2, 0, 0⟩ := rfl
    have hw : fistHand 0 = ⟨0, 0, 0⟩ := rfl
    simp only [isExtended, ht, hp, hw, distSq, decide_eq_false_iff_not, gt_iff_lt, not_lt]
    norm_num
  have ef3 : isExtended fistHand 12 10 = false := by
    have ht : fistHand 12 = ⟨1, 0, 0⟩ := rfl
    have hp : fistHand 10 = ⟨2, 0, 0⟩ := rfl
    have hw : fistHand 0 = ⟨0, 0, 0⟩ := rfl
    simp only [isExtended, ht, hp, hw, distSq, decide_eq_false_iff_not, gt_iff_lt, not_lt]
    norm_num
  have ef4 : isExtended fistHand 16 14 = false := by
    have ht : fistHand 16 = ⟨1, 0, 0⟩ := rfl
    have hp : fistHand 14 = ⟨2, 0, 0⟩ := rfl
    have hw : fistHand 0 = ⟨0, 0, 0⟩ := rfl
    simp only [isExtended, ht, hp, hw, distSq, decide_eq_false_iff_not, gt_iff_lt, not_lt]
    norm_num
  have ef5 : isExtended fistHand 20 18 = false := by
    have ht : fistHand 20 = ⟨1, 0, 0⟩ := rfl
    have hp : fistHand 18 = ⟨2, 0, 0⟩ := rfl
    have hw : fistHand 0 = ⟨0, 0, 0⟩ := rfl
    simp only [isExtended, ht, hp, hw, distSq, decide_eq_false_iff_not, gt_iff_lt, not_lt]
    norm_num
  refine ⟨hbridge, ?_, ?_, ?_, ?_, ?_⟩
  · simp only [processGestures]
    generalize isExtended lms 4 2 = b1
    generalize isExtended lms 8 6 = b2
    generalize isExtended lms 12 10 = b3
    generalize isExtended lms 16 14 = b4
    generalize isExtended lms 20 18 = b5
    cases b1 <;> cases b2 <;> cases b3 <;> cases b4 <;> cases b5 <;> rfl
  · simp only [processGestures]
    generalize isExtended lms 4 2 = b1
    generalize isExtended lms 8 6 = b2
    generalize isExtended lms 12 10 = b3
    generalize isExtended lms 16 14 = b4
    generalize isExtended lms 20 18 = b5
    cases b1 <;> cases b2 <;> cases b3 <;> cases b4 <;> cases b5 <;> rfl
  · simp only [processGestures, er1, er2, er3, er4, er5]
    rfl
  · simp only [processGestures, ef1, ef2, ef3, ef4, ef5]
    rfl
  · simp only [processGestures, ef1, ef2, ef3, ef4, ef5]
    rfl

/-- C9.  A no-hand polling tick resets the shared record to IDLE, not
detected, and origin hand position — whatever position was stored before is
discarded, not retained. -/
theorem no_hand_reset (d : GestureData) :
    (noHandUpdate d).mode = GestureMode.IDLE ∧
    (noHandUpdate d).detected = false ∧
    (noHandUpdate d).x = 0 ∧
    (noHandUpdate d).y = 0 :=
  ⟨rfl, rfl, rfl, rfl⟩

/-- C10.  A classifier tick leaves `rotationZ` unchanged unless the newly
decided mode is ROTATE_Z, leaves `scaleTarget` unchanged unless the new mode
is SCALE_UP or SCALE_DOWN, and a no-hand tick leaves `rotationZ`,
`scaleTarget` and `fingersCount` all untouched — these fields keep stale
values from the last gesture that set them. -/
theorem gesture_stale_fields (a : ℚ → ℚ → ℚ) (lms : Fin 21 → Landmark)
    (d : GestureData) :
    ((processGestures a lms d).mode ≠ GestureMode.ROTATE_Z →
      (processGestures a lms d).rotationZ = d.rotationZ) ∧
    ((processGestures a lms d).mode ≠ GestureMode.SCALE_UP →
      (processGestures a lms d).mode ≠ GestureMode.SCALE_DOWN →
      (processGestures a lms d).scaleTarget = d.scaleTarget) ∧
    (noHandUpdate d).rotationZ = d.rotationZ ∧
    (noHandUpdate d).scaleTarget = d.scaleTarget ∧
    (noHandUpdate d).fingersCount = d.fingersCount := by
  refine ⟨?_, ?_, rfl, rfl, rfl⟩ <;>
  · simp only [processGestures]
    generalize isExtended lms 4 2 = b1
    generalize isExtended lms 8 6 = b2
    generalize isExtended lms 12 10 = b3
    generalize isExtended lms 16 14 = b4
    generalize isExtended lms 20 18 = b5
    cases b1 <;> cases b2 <;> cases b3 <;> cases b4 <;> cases b5 <;> intros <;>
      first
        | rfl
        | exact absurd rfl (by assumption)

/-- Witness for `gesture_stale_fields`: on a concrete one-finger frame the
decided mode is IDLE, and both stale fields indeed keep their previous
values. -/
theorem gesture_stale_fields_witness :
    (processGestures (fun _ _ => 0) idleHand gestureInit).rotationZ
        = gestureInit.rotationZ ∧
    (processGestures (fun _ _ => 0) idleHand gestureInit).scaleTarget
        = gestureInit.scaleTarget := by
  have h := gesture_stale_fields (fun _ _ => 0) idleHand gestureInit
  have ei1 : isExtended idleHand 4 2 = false := by
    have ht : idleHand 4 = ⟨0, 0, 0⟩ := rfl
    have hp : idleHand 2 = ⟨0, 0, 0⟩ := rfl
    have hw : idleHand 0 = ⟨0, 0, 0⟩ := rfl
    simp only [isExtended, ht, hp, hw, distSq, decide_eq_false_iff_not, gt_iff_lt, not_lt]
    norm_num
  have ei2 : isExtended idleHand 8 6 = true := by
    have ht : idleHand 8 = ⟨1, 0, 0⟩ := rfl
    have hp : idleHand 6 = ⟨0, 0, 0⟩ := rfl
    have hw : idleHand 0 = ⟨0, 0, 0⟩ := rfl
    simp only [isExtended, ht, hp, hw, distSq, decide_eq_true_eq, gt_iff_lt]
    norm_num
  have ei3 : isExtended idleHand 12 10 = false := by
    have ht : idleHand 12 = ⟨0, 0, 0⟩ := rfl
    have hp : idleHand 10 = ⟨0, 0, 0⟩ := rfl
    have hw : idleHand 0 = ⟨0, 0, 0⟩ := rfl
    simp only [isExtended, ht, hp, hw, distSq, decide_eq_false_iff_not, gt_iff_lt, not_lt]
    norm_num
  have ei4 : isExtended idleHand 16 14 = false := by
    have ht : idleHand 16 = ⟨0, 0, 0⟩ := rfl
    have hp : idleHand 14 = ⟨0, 0, 0⟩ := rfl
    have hw : idleHand 0 = ⟨0, 0, 0⟩ := rfl
    simp only [isExtended, ht, hp, hw, distSq, decide_eq_false_iff_not, gt_iff_lt, not_lt]
    norm_num
  have ei5 : isExtended idleHand 20 18 = false := by
    have ht : idleHand 20 = ⟨0, 0, 0⟩ := rfl
    have hp : idleHand 18 = ⟨0, 0, 0⟩ := rfl
    have hw : idleHand 0 = ⟨0, 0, 0⟩ := rfl
    simp only [isExtended, ht, hp, hw, distSq, decide_eq_false_iff_not, gt_iff_lt, not_lt]
    norm_num
  have hmode : (processGestures (fun _ _ => 0) idleHand gestureInit).mode
      = GestureMode.IDLE := by
    simp only [processGestures, ei1, ei2, ei3, ei4, ei5]
    rfl
  exact ⟨h.1 (by rw [hmode]; exact fun hc => GestureMode.noConfusion hc),
    h.2.1 (by rw [hmode]; exact fun hc => GestureMode.noConfusion hc)
      (by rw [hmode]; exact fun hc => GestureMode.noConfusion hc)⟩

/-- C4 counterexample.  With the API key missing, `analyzeConcept` throws
(`Except.error`) instead of returning the fixed neutral fallback: the caller
`handleAISubmit` catches the exception, leaves the configuration unchanged
(in particular it does not receive the white-to-grey fallback palette) and
shows the "Could not connect" message, which is not the fallback explanation
string — refuting the claim that a missing API key yields the fallback
configuration and the fallback explanation. -/
theorem ai_missing_key_cex :
    analyzeConcept none GenOutcome.failure = Except.error "API Key is missing" ∧
    handleAISubmit defaultConfig (analyzeConcept none GenOutcome.failure)
      = (defaultConfig, some connectFailMessage) ∧
    defaultConfig.colorPalette ≠ fallbackResponse.colorPalette ∧
    connectFailMessage ≠ fallbackResponse.reasoning := by
  refine ⟨rfl, rfl, ?_, ?_⟩ <;> decide

/-- C4 (amended).  With an API key present, every failure of the AI call —
request error, missing response text, or unparsable response — is caught
inside `analyzeConcept` and converted to the fixed neutral fallback (white
to grey five-colour palette, speed 0.5, noiseStrength 0.2, Sphere) with the
fixed fallback explanation, which `handleAISubmit` applies to the
configuration; with the key missing, `analyzeConcept` instead throws before
the request, and `handleAISubmit` catches the exception, leaves the
configuration unchanged, and shows the "Could not connect" message — in
every case the failure is absorbed before reaching the render loop
(`handleAISubmit` is total). -/
theorem ai_fallback_behaviour (key : String) (cfg : ParticleConfig)
    (outcome : GenOutcome)
    (hfail : ∀ t resp, outcome ≠ GenOutcome.success (some t) (some resp)) :
    analyzeConcept (some key) outcome = Except.ok fallbackResponse ∧
    handleAISubmit cfg (analyzeConcept (some key) outcome)
      = ({ cfg with shape := ShapeType.SPHERE, color := "#ffffff",
                    colorPalette := ["#ffffff", "#cccccc", "#999999", "#666666", "#333333"],
                    speed := 0.5, noiseStrength := 0.2 },
         some "AI service unavailable, reverting to default.") ∧
    handleAISubmit cfg (analyzeConcept none outcome) = (cfg, some connectFailMessage) := by
  have hres : analyzeConcept (some key) outcome = Except.ok fallbackResponse := by
    cases outcome with
    | failure => rfl
    | success text parsed =>
      cases text with
      | none => rfl
      | some t =>
        cases parsed with
        | none => rfl
        | some resp => exact absurd rfl (hfail t resp)
  refine ⟨hres, ?_, rfl⟩
  rw [hres]
  rfl

/-- Witness for `ai_fallback_behaviour` at a concrete failing call. -/
theorem ai_fallback_behaviour_witness :
    analyzeConcept (some "k") GenOutcome.failure = Except.ok fallbackResponse ∧
    handleAISubmit defaultConfig (analyzeConcept none GenOutcome.failure)
      = (defaultConfig, some connectFailMessage) := by
  have h := ai_fallback_behaviour "k" defaultConfig GenOutcome.failure
    (fun t resp hc => GenOutcome.noConfusion hc)
  exact ⟨h.1, h.2.2⟩

theorem runScaleUp_gap (deltas : List ℚ) :
    ∀ s : ℚ, runScaleUp s deltas = 3 - (3 - s) * gapFactors deltas := by
  induction deltas with
  | nil => intro s; simp [runScaleUp, gapFactors]
  | cons delta ds ih =>
    intro s
    have hstep : scaleStep GestureMode.SCALE_UP 3.0 s delta
        = 3 - (3 - s) * (1 - 5 * delta) := by
      simp only [scaleStep, lerp]
      ring
    calc runScaleUp s (delta :: ds)
        = runScaleUp (scaleStep GestureMode.SCALE_UP 3.0 s delta) ds := by
          simp [runScaleUp]
      _ = 3 - (3 - scaleStep GestureMode.SCALE_UP 3.0 s delta) * gapFactors ds := ih _
      _ = 3 - (3 - s) * gapFactors (delta :: ds) := by
          rw [hstep, show gapFactors (delta :: ds) = (1 - 5 * delta) * gapFactors ds from by
            rw [gapFactors, gapFactors, List.map_cons, List.prod_cons]]
          ring_nf

theorem gapFactors_nonneg (deltas : List ℚ)
    (h : ∀ delta ∈ deltas, 0 ≤ 1 - 5 * delta) : 0 ≤ gapFactors deltas := by
  induction deltas with
  | nil => simp [gapFactors]
  | cons d ds ih =>
    rw [gapFactors, List.map_cons, List.prod_cons]
    exact mul_nonneg (h d (List.mem_cons_self d ds))
      (ih (fun q hq => h q (List.mem_cons_of_mem d hq)))

theorem gapFactors_le_pow (deltas : List ℚ) (ub : ℚ) (hub : 0 ≤ ub)
    (h : ∀ delta ∈ deltas, 0 ≤ 1 - 5 * delta ∧ 1 - 5 * delta ≤ ub) :
    gapFactors deltas ≤ ub ^ deltas.length := by
  induction deltas with
  | nil => simp [gapFactors]
  | cons d ds ih =>
    rw [gapFactors, List.map_cons, List.prod_cons, List.length_cons, pow_succ]
    have hd := h d (List.mem_cons_self d ds)
    have hrest : ∀ q ∈ ds, 0 ≤ 1 - 5 * q ∧ 1 - 5 * q ≤ ub :=
      fun q hq => h q (List.mem_cons_of_mem d hq)
    have h1 : gapFactors ds ≤ ub ^ ds.length := ih hrest
    have h2 : 0 ≤ gapFactors ds :=
      gapFactors_nonneg ds (fun q hq => (hrest q hq).1)
    calc (1 - 5 * d) * gapFactors ds
        ≤ ub * (ub ^ ds.length) := by
          exact mul_le_mul hd.2 h1 h2 hub
      _ = ub ^ ds.length * ub := by ring

/-- C7 counterexample.  A single tick with the nonnegative frame delta 0.3
gives `lerpSpeed = 1.5 > 1`, and from `currentScale = 1` the unclamped lerp
overshoots to 4 — refuting "never exceeds 3.0 at any tick" for arbitrary
nonnegative frame deltas. -/
theorem scaleup_overshoot_cex :
    0 ≤ (0.3 : ℚ) ∧ 3 < runScaleUp 1 [(0.3 : ℚ)] := by
  constructor
  · norm_num
  · show (3 : ℚ) < runScaleUp 1 [(0.3 : ℚ)]
    simp only [runScaleUp, List.foldl_cons, List.foldl_nil, scaleStep, lerp]
    norm_num

/-- C7 (amended).  Starting from `currentScale = 1` under a sustained
SCALE_UP gesture (`scaleTarget = 3.0`), PROVIDED every frame delta satisfies
`5 * delta ≤ 1` (i.e. delta at most 0.2 seconds), `currentScale` stays within
`[1, 3]` after every prefix of ticks (approach without overshoot); the gap to
3.0 is bounded by `2 * (1 - 5 * lo) ^ n` when the deltas are also bounded
below by `lo > 0`, and for every positive tolerance there is a number of
ticks beyond which the gap is smaller than it — exponential approach.
Without the `delta ≤ 0.2` bound the property fails
(`scaleup_overshoot_cex`). -/
theorem scaleup_no_overshoot_approach (deltas : List ℚ) (lo tol : ℚ)
    (hb : ∀ delta ∈ deltas, lo ≤ delta ∧ 5 * delta ≤ 1)
    (hlo : 0 < lo) (hlo1 : 5 * lo ≤ 1) (htol : 0 < tol) :
    (∀ n : ℕ, 1 ≤ runScaleUp 1 (deltas.take n) ∧ runScaleUp 1 (deltas.take n) ≤ 3) ∧
    3 - runScaleUp 1 deltas ≤ 2 * (1 - 5 * lo) ^ deltas.length ∧
    (∃ N : ℕ, ∀ ds : List ℚ, (∀ delta ∈ ds, lo ≤ delta ∧ 5 * delta ≤ 1) →
      N ≤ ds.length → 3 - runScaleUp 1 ds < tol) := by
  have hub0 : (0 : ℚ) ≤ 1 - 5 * lo := by linarith
  have hub1 : 1 - 5 * lo ≤ 1 := by linarith
  have hbound : ∀ ds : List ℚ, (∀ delta ∈ ds, lo ≤ delta ∧ 5 * delta ≤ 1) →
      3 - runScaleUp 1 ds ≤ 2 * (1 - 5 * lo) ^ ds.length ∧
      0 ≤ 3 - runScaleUp 1 ds ∧ 1 ≤ runScaleUp 1 ds := by
    intro ds hds
    have hfac : ∀ delta ∈ ds, 0 ≤ 1 - 5 * delta ∧ 1 - 5 * delta ≤ 1 - 5 * lo := by
      intro delta hdelta
      have hd := hds delta hdelta
      exact ⟨by linarith [hd.2], by linarith [hd.1]⟩
    have hgap := runScaleUp_gap ds 1
    have hge : 0 ≤ gapFactors ds := gapFactors_nonneg ds (fun q hq => (hfac q hq).1)
    have hle : gapFactors ds ≤ (1 - 5 * lo) ^ ds.length :=
      gapFactors_le_pow ds (1 - 5 * lo) hub0 hfac
    have hone : gapFactors ds ≤ 1 := by
      calc gapFactors ds ≤ (1 - 5 * lo) ^ ds.length :=
            hle
        _ ≤ 1 ^ ds.length := pow_le_pow_left₀ hub0 hub1 ds.length
        _ = 1 := one_pow ds.length
    refine ⟨?_, ?_, ?_⟩
    · rw [hgap]; nlinarith
    · rw [hgap]; nlinarith
    · rw [hgap]; nlinarith
  refine ⟨?_, (hbound deltas hb).1, ?_⟩
  · intro n
    have htake : ∀ delta ∈ deltas.take n, lo ≤ delta ∧ 5 * delta ≤ 1 :=
      fun delta hdelta => hb delta (List.take_subset n deltas hdelta)
    have h := hbound (deltas.take n) htake
    exact ⟨h.2.2, by linarith [h.2.1]⟩
  · obtain ⟨N, hN⟩ := exists_pow_lt_of_lt_one (show (0 : ℚ) < tol / 2 by linarith)
      (show 1 - 5 * lo < 1 by linarith)
    refine ⟨N, fun ds hds hlen => ?_⟩
    have h := hbound ds hds
    have hmono : (1 - 5 * lo) ^ ds.length ≤ (1 - 5 * lo) ^ N :=
      pow_le_pow_of_le_one hub0 hub1 hlen
    calc 3 - runScaleUp 1 ds
        ≤ 2 * (1 - 5 * lo) ^ ds.length := h.1
      _ ≤ 2 * (1 - 5 * lo) ^ N := by linarith
      _ < 2 * (tol / 2) := by linarith
      _ = tol := by ring

/-- Witness for `scaleup_no_overshoot_approach` with two 0.1-second frames. -/
theorem scaleup_no_overshoot_approach_witness :
    1 ≤ runScaleUp 1 ([(0.1 : ℚ), 0.1].take 2) ∧
    runScaleUp 1 ([(0.1 : ℚ), 0.1].take 2) ≤ 3 ∧
    3 - runScaleUp 1 [(0.1 : ℚ), 0.1] ≤ 2 * (1 - 5 * 0.1) ^ [(0.1 : ℚ), 0.1].length := by
  have h := scaleup_no_overshoot_approach [(0.1 : ℚ), 0.1] 0.1 1
    (by
      intro delta hdelta
      rcases List.mem_cons.mp hdelta with hd | hd
      · subst hd; norm_num
      · have hd2 := List.mem_singleton.mp hd
        subst hd2; norm_num)
    (by norm_num) (by norm_num) (by norm_num)
  exact ⟨(h.1 2).1, (h.1 2).2, h.2.1⟩

/-- C8 counterexample.  The phase of the Z-axis perturbation, read off the
frame loop, is invariant under changes of the particle's X and Y coordinates
but varies with its own Z coordinate — so it does not depend on a coordinate
of a different axis than the one being perturbed, refuting the claim for the
Z perturbation (the X and Y perturbations do use a different axis, see
`morph_noise_decomposition`). -/
theorem noise_z_phase_same_axis_cex :
    noisePhaseZ 1 1 ⟨0, 0, 0⟩ = noisePhaseZ 1 1 ⟨9, 9, 0⟩ ∧
    noisePhaseZ 1 1 ⟨0, 0, 0⟩ ≠ noisePhaseZ 1 1 ⟨0, 0, 1⟩ := by
  constructor
  · rfl
  · intro h
    rw [noisePhaseZ, noisePhaseZ] at h
    norm_num at h

/-- C8 (amended).  In every frame with `noiseStrength` above the 0.01
threshold and for every interpretation of sine and cosine, the perturbation
added to each axis is sinusoidal with amplitude `0.1 * noiseStrength`
(linear in `noiseStrength`) and phase `time * speed + 0.5 * coordinate` of a
post-morph coordinate — the X perturbation's phase reads the particle's Y
coordinate and the Y perturbation's phase reads the X coordinate (different
axes), but the Z perturbation's phase reads the particle's own Z coordinate
(the same axis). -/
theorem morph_noise_decomposition (M : MathOps) (time speed nS : ℚ)
    (target cur : Pt3) (h : nS > 0.01) :
    morphStep M time speed nS target cur
      = ⟨(morphOnly target cur).x
            + M.sin (noisePhaseX time speed (morphOnly target cur)) * noiseAmp nS,
         (morphOnly target cur).y
            + M.cos (noisePhaseY time speed (morphOnly target cur)) * noiseAmp nS,
         (morphOnly target cur).z
            + M.sin (noisePhaseZ time speed (morphOnly target cur)) * noiseAmp nS⟩ ∧
    (∀ c s : ℚ, noiseAmp (c * s) = c * noiseAmp s) := by
  constructor
  · simp only [morphStep, noisePhaseX, noisePhaseY, noisePhaseZ, noiseAmp]
    rw [if_pos h]
  · intro c s
    simp only [noiseAmp]
    ring

/-- Witness for `morph_noise_decomposition` at a concrete frame with
`noiseStrength = 1`. -/
theorem morph_noise_decomposition_witness :
    morphStep mathZero 0 0 1 ⟨0, 0, 0⟩ ⟨0, 0, 0⟩
      = ⟨(morphOnly ⟨0, 0, 0⟩ ⟨0, 0, 0⟩).x
            + mathZero.sin (noisePhaseX 0 0 (morphOnly ⟨0, 0, 0⟩ ⟨0, 0, 0⟩)) * noiseAmp 1,
         (morphOnly ⟨0, 0, 0⟩ ⟨0, 0, 0⟩).y
            + mathZero.cos (noisePhaseY 0 0 (morphOnly ⟨0, 0, 0⟩ ⟨0, 0, 0⟩)) * noiseAmp 1,
         (morphOnly ⟨0, 0, 0⟩ ⟨0, 0, 0⟩).z
            + mathZero.sin (noisePhaseZ 0 0 (morphOnly ⟨0, 0, 0⟩ ⟨0, 0, 0⟩)) * noiseAmp 1⟩ :=
  (morph_noise_decomposition mathZero 0 0 1 ⟨0, 0, 0⟩ ⟨0, 0, 0⟩ (by norm_num)).1
